import Mathlib

/-!
Shallow embedding of `src/interface.js`: a browser widget that fetches a list
of color palettes from `pallets.json` (with a bounded retry loop) and renders
one button per palette; clicking a button applies that palette's four colors
as CSS custom properties on the document root.

Modelling choices:
* JavaScript runtime values parsed from JSON are modelled by `JsVal`
  (string / undefined / null / object / array), so that the dynamic throw
  sites of the source (property access on `undefined`/`null`, calling
  `.forEach` on a non-array) are representable.
* The document is modelled by `Dom`: the button container element (present or
  absent, with its list of child nodes) and the root element's inline style
  declaration (an association list of CSS custom properties, in declaration
  order, as `CSSStyleDeclaration.setProperty` maintains it).
* Effectful functions return `(Except String α) × Dom`: the `Except` carries a
  thrown-exception message and the `Dom` the state at the moment of the throw,
  mirroring that JavaScript DOM mutations persist across a thrown exception.
* `fetch` and `response.json()` are host functionality; they enter the model
  as an environment `env : Nat → Except String Response` giving the outcome of
  the i-th fetch call, and a field `Response.jsonResult` giving the outcome of
  parsing that response's body.
* Timed waits (`setTimeout`) are recorded as a trace of durations in ms.
-/

set_option autoImplicit false

namespace Interface

/-- A JavaScript value as produced by `JSON.parse` (plus `undefined`, which
arises from reading an absent property). Functions never occur in parsed
JSON, so they are not represented. -/
inductive JsVal where
  | vstr (s : String)
  | vundefined
  | vnull
  | vobj (fields : List (String × JsVal))
  | varr (elems : List JsVal)

/-- First binding of `key` in a JavaScript object's field list. -/
def lookupField : List (String × JsVal) → String → Option JsVal
  | [], _ => none
  | (k, v) :: rest, key => if k = key then some v else lookupField rest key

/-- JavaScript property read `v.key`: throws a `TypeError` when the receiver
is `undefined` or `null`; an absent property reads as `undefined`; reads of
the data properties used by the source (`name`, `primary`, ...) on string or
array primitives yield `undefined`. -/
def getProp : JsVal → String → Except String JsVal
  | JsVal.vundefined, key =>
      Except.error ("TypeError: Cannot read properties of undefined (reading " ++ key ++ ")")
  | JsVal.vnull, key =>
      Except.error ("TypeError: Cannot read properties of null (reading " ++ key ++ ")")
  | JsVal.vobj fields, key => Except.ok ((lookupField fields key).getD JsVal.vundefined)
  | JsVal.vstr _, _ => Except.ok JsVal.vundefined
  | JsVal.varr _, _ => Except.ok JsVal.vundefined

/-- JavaScript string coercion, as applied when a value is assigned to
`textContent` or passed to `style.setProperty`. (For nested arrays the
JavaScript flattening of `Array.prototype.toString` is simplified to one
level; the source only ever coerces strings.) -/
def jsToString : JsVal → String
  | JsVal.vstr s => s
  | JsVal.vundefined => "undefined"
  | JsVal.vnull => "null"
  | JsVal.vobj _ => "[object Object]"
  | JsVal.varr es => String.intercalate "," (es.map fun e =>
      match e with
      | JsVal.vstr s => s
      | JsVal.vundefined => ""
      | JsVal.vnull => ""
      | JsVal.vobj _ => "[object Object]"
      | JsVal.varr _ => "")

/-- The root element's inline style declaration: CSS custom properties in
declaration order. -/
def StyleVars : Type := List (String × String)

/-- `CSSStyleDeclaration.setProperty name value`: overwrites an existing
declaration in place, otherwise appends a new one. (CSS value parsing is host
behavior and is not modelled; the source never relies on it, and the spec
notes color-value syntax is not validated.) -/
def setProperty : StyleVars → String → String → StyleVars
  | [], k, v => [(k, v)]
  | (k', v') :: rest, k, v =>
      if k' = k then (k, v) :: rest else (k', v') :: setProperty rest k v

/-- `CSSStyleDeclaration.getPropertyValue`: the current value of a declared
property, if any. -/
def getProperty : StyleVars → String → Option String
  | [], _ => none
  | (k', v') :: rest, k => if k' = k then some v' else getProperty rest k

/-- A `<button>` element as built by `createPaletteButtons`: its text, class,
the inline styles the source assigns, and the palette value captured by its
click listener. -/
structure Button where
  textContent : String
  className : String
  backgroundColor : String
  color : String
  borderColor : String
  borderWidth : String
  onClick : JsVal

/-- A child node of the container: either an appended button element, or raw
markup assigned through `innerHTML`. -/
inductive Node where
  | button (b : Button)
  | html (s : String)

/-- The document state the source reads and writes: the
`#palette-selector` container (if present in the page, with its children)
and the root element's style declaration. -/
structure Dom where
  container : Option (List Node)
  rootStyle : StyleVars

-- --- Configuration --- (source lines 1-5)

/-- Location of the color palette data. -/
def PALETTES_FILE : String := "pallets.json"

/-- ID of the element where the palette buttons are injected. The model
represents `document.getElementById BUTTONS_CONTAINER_ID` directly as
`Dom.container`. -/
def BUTTONS_CONTAINER_ID : String := "palette-selector"

/-- `applyPalette palette` (source lines 13-23): sets the four CSS custom
properties from the palette's fields, in source order, then reads
`palette.name` for the `console.log` template. Each `setProperty` call
evaluates its property-read argument first, so a throwing read (receiver
`undefined`/`null`) leaves the style unchanged up to that point. -/
def applyPalette (palette : JsVal) (dom : Dom) : (Except String Unit) × Dom :=
  match getProp palette "primary" with
  | Except.error e => (Except.error e, dom)
  | Except.ok v1 =>
    let s1 := setProperty dom.rootStyle "--color-primary" (jsToString v1)
    match getProp palette "secondary" with
    | Except.error e => (Except.error e, { dom with rootStyle := s1 })
    | Except.ok v2 =>
      let s2 := setProperty s1 "--color-secondary" (jsToString v2)
      match getProp palette "text" with
      | Except.error e => (Except.error e, { dom with rootStyle := s2 })
      | Except.ok v3 =>
        let s3 := setProperty s2 "--color-text" (jsToString v3)
        match getProp palette "background" with
        | Except.error e => (Except.error e, { dom with rootStyle := s3 })
        | Except.ok v4 =>
          let s4 := setProperty s3 "--color-background" (jsToString v4)
          match getProp palette "name" with
          | Except.error e => (Except.error e, { dom with rootStyle := s4 })
          | Except.ok _ => (Except.ok (), { dom with rootStyle := s4 })

/-- Class string assigned to every generated button (source line 43). -/
def buttonClassName : String :=
  "px-4 py-2 m-1 text-sm font-medium rounded-lg transition-colors duration-200 shadow-md"

/-- The body of the `forEach` callback up to `appendChild` (source lines
41-54): reads `palette.name` (for `textContent`) and `palette.primary` (for
`color` and `borderColor`), assigns the fixed class and inline styles, and
registers a click listener capturing this `palette` value. -/
def mkButton (palette : JsVal) : Except String Button :=
  match getProp palette "name" with
  | Except.error e => Except.error e
  | Except.ok nm =>
    match getProp palette "primary" with
    | Except.error e => Except.error e
    | Except.ok prim =>
      Except.ok
        { textContent := jsToString nm
          className := buttonClassName
          backgroundColor := "white"
          color := jsToString prim
          borderColor := jsToString prim
          borderWidth := "2px"
          onClick := palette }

/-- `palettes.forEach(palette => ...)` over an array's elements: builds each
button and appends it to the container; a thrown exception propagates,
leaving the buttons appended so far in place. -/
def appendButtons : List JsVal → Dom → (Except String Unit) × Dom
  | [], dom => (Except.ok (), dom)
  | p :: rest, dom =>
    match mkButton p with
    | Except.error e => (Except.error e, dom)
    | Except.ok b =>
      appendButtons rest { dom with container := some ((dom.container.getD []) ++ [Node.button b]) }

/-- Raised by `palettes.forEach(...)` when the parsed value is not an array. -/
def forEachTypeError : String := "TypeError: palettes.forEach is not a function"

/-- `createPaletteButtons palettes` (source lines 29-63): if the container
element is absent, logs an error and returns; otherwise clears the
container (`innerHTML = ''`), appends one button per palette via `forEach`
(throwing if `palettes` is not an array), and, if the array is non-empty,
applies its first element as the default palette. -/
def createPaletteButtons (palettes : JsVal) (dom : Dom) : (Except String Unit) × Dom :=
  match dom.container with
  | none => (Except.ok (), dom)
  | some _ =>
    let dom1 : Dom := { dom with container := some [] }
    match palettes with
    | JsVal.varr elems =>
      match appendButtons elems dom1 with
      | (Except.error e, dom2) => (Except.error e, dom2)
      | (Except.ok _, dom2) =>
        match elems with
        | [] => (Except.ok (), dom2)
        | p0 :: _ => applyPalette p0 dom2
    | _ => (Except.error forEachTypeError, dom1)

/-- Activating a rendered control runs its click listener, which calls
`applyPalette` on the palette value captured when the button was created. -/
def clickButton (b : Button) (dom : Dom) : (Except String Unit) × Dom :=
  applyPalette b.onClick dom

-- --- The Loader (initializeInterface, source lines 68-96) ---

/-- Outcome of one `fetch(PALETTES_FILE)` call as the model sees it:
`ok`/`status`/`statusText` are the response fields the source reads, and
`jsonResult` is the outcome the host's `response.json()` would produce for
this response's body (an error models a body that is not valid JSON). -/
structure Response where
  ok : Bool
  status : Nat
  statusText : String
  jsonResult : Except String JsVal

/-- Result of running the retry loop: `outcome` is an escaped exception
(`fetch` rejected: a transport error) or the final value of the `response`
variable (`none` only if the loop body never ran); `attempts` counts fetch
calls made and `waits` lists the `setTimeout` durations awaited, in order. -/
structure LoopResult where
  outcome : Except String (Option Response)
  attempts : Nat
  waits : List Nat

/-- Maximum number of fetch attempts (source line 71). -/
def maxRetries : Nat := 3

/-- The `for (let i = 0; i < maxRetries; i++)` loop body (source lines
73-78), with `fuel = maxRetries - i` remaining iterations: fetches; a
rejection escapes the loop at once; a response with `ok` breaks out;
otherwise the loop waits `2^i * 100` ms and continues. -/
def fetchLoopAux (env : Nat → Except String Response) :
    Nat → Nat → Option Response → LoopResult
  | 0, _, last => { outcome := Except.ok last, attempts := 0, waits := [] }
  | fuel + 1, i, _ =>
    match env i with
    | Except.error e => { outcome := Except.error e, attempts := 1, waits := [] }
    | Except.ok resp =>
      if resp.ok then
        { outcome := Except.ok (some resp), attempts := 1, waits := [] }
      else
        let rest := fetchLoopAux env fuel (i + 1) (some resp)
        { outcome := rest.outcome, attempts := rest.attempts + 1,
          waits := (2 ^ i * 100) :: rest.waits }

/-- The whole retry loop, from `i = 0` with `response` undefined. -/
def fetchLoop (env : Nat → Except String Response) : LoopResult :=
  fetchLoopAux env maxRetries 0 none

/-- Message of the `Error` thrown when the loop ends without an ok response
(source line 81). -/
def failMessage (resp : Response) : String :=
  "Failed to fetch " ++ PALETTES_FILE ++ " after " ++ toString maxRetries ++
    " attempts: " ++ toString resp.status ++ " " ++ resp.statusText

/-- Thrown when `maxRetries` were 0 and `response.ok` were read off an
unassigned `response`; unreachable with `maxRetries = 3` but kept for
fidelity to the source's `let response;`. -/
def responseUndefinedError : String :=
  "TypeError: Cannot read properties of undefined (reading ok)"

/-- The `try` block of `initializeInterface` (source lines 69-85): run the
retry loop; rethrow an escaped fetch rejection; throw `failMessage` if the
final response is not ok; otherwise parse the body and hand the result to
`createPaletteButtons`. Returns the thrown error or unit, the document
state, and the loop's attempt count and wait trace. -/
def tryBody (env : Nat → Except String Response) (dom : Dom) :
    (Except String Unit) × Dom × Nat × List Nat :=
  let lr := fetchLoop env
  match lr.outcome with
  | Except.error e => (Except.error e, dom, lr.attempts, lr.waits)
  | Except.ok none => (Except.error responseUndefinedError, dom, lr.attempts, lr.waits)
  | Except.ok (some resp) =>
    if resp.ok then
      match resp.jsonResult with
      | Except.error e => (Except.error e, dom, lr.attempts, lr.waits)
      | Except.ok palettes =>
        match createPaletteButtons palettes dom with
        | (r, dom2) => (r, dom2, lr.attempts, lr.waits)
    else
      (Except.error (failMessage resp), dom, lr.attempts, lr.waits)

/-- Markup assigned to the container by the `catch` handler (source line
93). -/
def errorMessageHtml : String :=
  "<p class=\"text-red-600 text-sm\">Error loading color palettes. Check console for details.</p>"

/-- Result of one run of `initializeInterface`: final document state, number
of fetch attempts, wait trace, and the error logged by the `catch` handler
(when it ran). -/
structure InitResult where
  dom : Dom
  attempts : Nat
  waits : List Nat
  caughtError : Option String

/-- `initializeInterface` (source lines 68-96): the `try` block, and on any
thrown error the single `catch` handler, which logs the error and — if the
container element exists — replaces its content with the fallback message. -/
def initializeInterface (env : Nat → Except String Response) (dom : Dom) : InitResult :=
  match tryBody env dom with
  | (Except.ok _, dom2, n, ws) =>
    { dom := dom2, attempts := n, waits := ws, caughtError := none }
  | (Except.error e, dom2, n, ws) =>
    match dom2.container with
    | none => { dom := dom2, attempts := n, waits := ws, caughtError := some e }
    | some _ =>
      { dom := { dom2 with container := some [Node.html errorMessageHtml] },
        attempts := n, waits := ws, caughtError := some e }

-- --- Structurally valid palettes (the data model of the spec, §3) ---

/-- A palette record: a display name and four color values. This is the
shape of each entry of the input resource; `Palette.toJs` is its image in
the runtime-value model. -/
structure Palette where
  name : String
  primary : String
  secondary : String
  text : String
  background : String
  deriving Repr, DecidableEq

/-- The JavaScript object a structurally valid palette parses to. -/
def Palette.toJs (p : Palette) : JsVal :=
  JsVal.vobj [("name", JsVal.vstr p.name), ("primary", JsVal.vstr p.primary),
    ("secondary", JsVal.vstr p.secondary), ("text", JsVal.vstr p.text),
    ("background", JsVal.vstr p.background)]

/-- The button `createPaletteButtons` builds for a structurally valid
palette. -/
def buttonOf (p : Palette) : Button :=
  { textContent := p.name
    className := buttonClassName
    backgroundColor := "white"
    color := p.primary
    borderColor := p.primary
    borderWidth := "2px"
    onClick := Palette.toJs p }

end Interface

namespace Interface

-- --- Properties of the style declaration ---

theorem getProperty_setProperty_self (s : StyleVars) (k v : String) :
    getProperty (setProperty s k v) k = some v := by
  induction s with
  | nil => simp [setProperty, getProperty]
  | cons e rest ih =>
    obtain ⟨k', v'⟩ := e
    by_cases h : k' = k
    · simp [setProperty, getProperty, h]
    · simp [setProperty, getProperty, h, ih]

theorem getProperty_setProperty_ne (s : StyleVars) (k k' v : String) (h : k' ≠ k) :
    getProperty (setProperty s k v) k' = getProperty s k' := by
  have h' : ¬ k = k' := fun hh => h hh.symm
  induction s with
  | nil => simp [setProperty, getProperty, h']
  | cons e rest ih =>
    obtain ⟨k0, v0⟩ := e
    by_cases h0 : k0 = k
    · subst h0
      simp [setProperty, getProperty, h']
    · simp [setProperty, getProperty, h0, ih]

theorem setProperty_same (s : StyleVars) (k v : String) (h : getProperty s k = some v) :
    setProperty s k v = s := by
  induction s with
  | nil => simp [getProperty] at h
  | cons e rest ih =>
    obtain ⟨k0, v0⟩ := e
    by_cases h0 : k0 = k
    · subst h0
      simp [getProperty] at h
      simp [setProperty, h]
    · simp [getProperty, h0] at h
      simp [setProperty, h0, ih h]

end Interface

namespace Interface

-- --- Behavior on structurally valid palettes ---

/-- The style declaration after `applyPalette` runs on a structurally valid
palette: the four custom properties set in source order. -/
def appliedStyle (p : Palette) (s : StyleVars) : StyleVars :=
  setProperty (setProperty (setProperty (setProperty s
    "--color-primary" p.primary) "--color-secondary" p.secondary)
    "--color-text" p.text) "--color-background" p.background

theorem applyPalette_toJs (p : Palette) (dom : Dom) :
    applyPalette (Palette.toJs p) dom =
      (Except.ok (), { dom with rootStyle := appliedStyle p dom.rootStyle }) := by
  simp [applyPalette, Palette.toJs, getProp, lookupField, jsToString, appliedStyle]

theorem mkButton_toJs (p : Palette) :
    mkButton (Palette.toJs p) = Except.ok (buttonOf p) := by
  simp [mkButton, Palette.toJs, getProp, lookupField, jsToString, buttonOf]

theorem getProperty_appliedStyle_primary (p : Palette) (s : StyleVars) :
    getProperty (appliedStyle p s) "--color-primary" = some p.primary := by
  unfold appliedStyle
  rw [getProperty_setProperty_ne _ "--color-background" "--color-primary" _ (by decide),
    getProperty_setProperty_ne _ "--color-text" "--color-primary" _ (by decide),
    getProperty_setProperty_ne _ "--color-secondary" "--color-primary" _ (by decide),
    getProperty_setProperty_self]

theorem getProperty_appliedStyle_secondary (p : Palette) (s : StyleVars) :
    getProperty (appliedStyle p s) "--color-secondary" = some p.secondary := by
  unfold appliedStyle
  rw [getProperty_setProperty_ne _ "--color-background" "--color-secondary" _ (by decide),
    getProperty_setProperty_ne _ "--color-text" "--color-secondary" _ (by decide),
    getProperty_setProperty_self]

theorem getProperty_appliedStyle_text (p : Palette) (s : StyleVars) :
    getProperty (appliedStyle p s) "--color-text" = some p.text := by
  unfold appliedStyle
  rw [getProperty_setProperty_ne _ "--color-background" "--color-text" _ (by decide),
    getProperty_setProperty_self]

theorem getProperty_appliedStyle_background (p : Palette) (s : StyleVars) :
    getProperty (appliedStyle p s) "--color-background" = some p.background := by
  simp [appliedStyle, getProperty_setProperty_self]

theorem getProperty_appliedStyle_other (p : Palette) (s : StyleVars) (key : String)
    (h1 : key ≠ "--color-primary") (h2 : key ≠ "--color-secondary")
    (h3 : key ≠ "--color-text") (h4 : key ≠ "--color-background") :
    getProperty (appliedStyle p s) key = getProperty s key := by
  simp [appliedStyle, getProperty_setProperty_ne _ _ _ _ h1,
    getProperty_setProperty_ne _ _ _ _ h2, getProperty_setProperty_ne _ _ _ _ h3,
    getProperty_setProperty_ne _ _ _ _ h4]

theorem appliedStyle_of_matching (p : Palette) (s : StyleVars)
    (h1 : getProperty s "--color-primary" = some p.primary)
    (h2 : getProperty s "--color-secondary" = some p.secondary)
    (h3 : getProperty s "--color-text" = some p.text)
    (h4 : getProperty s "--color-background" = some p.background) :
    appliedStyle p s = s := by
  unfold appliedStyle
  rw [setProperty_same _ _ _ h1, setProperty_same _ _ _ h2,
    setProperty_same _ _ _ h3, setProperty_same _ _ _ h4]

theorem appliedStyle_idem (p : Palette) (s : StyleVars) :
    appliedStyle p (appliedStyle p s) = appliedStyle p s :=
  appliedStyle_of_matching p _ (getProperty_appliedStyle_primary p s)
    (getProperty_appliedStyle_secondary p s) (getProperty_appliedStyle_text p s)
    (getProperty_appliedStyle_background p s)

end Interface

namespace Interface

theorem appendButtons_toJs (P : List Palette) (dom : Dom) (c : List Node)
    (h : dom.container = some c) :
    appendButtons (P.map Palette.toJs) dom =
      (Except.ok (),
        { dom with container := some (c ++ P.map fun q => Node.button (buttonOf q)) }) := by
  induction P generalizing dom c with
  | nil =>
    obtain ⟨container, rootStyle⟩ := dom
    simp at h
    simp [appendButtons, h]
  | cons p rest ih =>
    simp only [List.map_cons, appendButtons, mkButton_toJs, h]
    rw [ih _ (c ++ [Node.button (buttonOf p)]) (by simp)]
    simp

theorem createPaletteButtons_toJs_nil (dom : Dom) (c : List Node)
    (h : dom.container = some c) :
    createPaletteButtons (JsVal.varr ([].map Palette.toJs)) dom =
      (Except.ok (), { dom with container := some [] }) := by
  simp [createPaletteButtons, h, appendButtons]

theorem createPaletteButtons_toJs_cons (p : Palette) (rest : List Palette)
    (dom : Dom) (c : List Node) (h : dom.container = some c) :
    createPaletteButtons (JsVal.varr ((p :: rest).map Palette.toJs)) dom =
      (Except.ok (),
        { dom with
            container := some ((p :: rest).map fun q => Node.button (buttonOf q)),
            rootStyle := appliedStyle p dom.rootStyle }) := by
  simp only [createPaletteButtons, h, List.map_cons]
  rw [show (Palette.toJs p :: rest.map Palette.toJs) = (p :: rest).map Palette.toJs
      from by simp]
  rw [appendButtons_toJs (p :: rest) { dom with container := some [] } [] rfl]
  simp [applyPalette_toJs]

end Interface

namespace Interface

theorem fetchLoop_first_ok (env : Nat → Except String Response) (r : Response)
    (h : env 0 = Except.ok r) (hok : r.ok = true) :
    fetchLoop env = { outcome := Except.ok (some r), attempts := 1, waits := [] } := by
  simp [fetchLoop, maxRetries, fetchLoopAux, h, hok]

theorem fetchLoop_all_fail (env : Nat → Except String Response) (r0 r1 r2 : Response)
    (h0 : env 0 = Except.ok r0) (hk0 : r0.ok = false)
    (h1 : env 1 = Except.ok r1) (hk1 : r1.ok = false)
    (h2 : env 2 = Except.ok r2) (hk2 : r2.ok = false) :
    fetchLoop env = { outcome := Except.ok (some r2), attempts := 3, waits := [100, 200, 400] } := by
  simp [fetchLoop, maxRetries, fetchLoopAux, h0, h1, h2, hk0, hk1, hk2]

end Interface

namespace Interface

theorem fetchLoop_transport (env : Nat → Except String Response) (k : Nat) (e : String)
    (hk : k < maxRetries)
    (hbefore : ∀ j, j < k → ∃ r, env j = Except.ok r ∧ r.ok = false)
    (herr : env k = Except.error e) :
    fetchLoop env =
      { outcome := Except.error e, attempts := k + 1,
        waits := (List.range k).map (fun j => 2 ^ j * 100) } := by
  have hk3 : k < 3 := hk
  interval_cases k
  · simp [fetchLoop, maxRetries, fetchLoopAux, herr]
  · obtain ⟨r0, h0, hr0⟩ := hbefore 0 (by norm_num)
    simp [fetchLoop, maxRetries, fetchLoopAux, h0, hr0, herr, List.range_succ]
  · obtain ⟨r0, h0, hr0⟩ := hbefore 0 (by norm_num)
    obtain ⟨r1, h1, hr1⟩ := hbefore 1 (by norm_num)
    simp [fetchLoop, maxRetries, fetchLoopAux, h0, hr0, h1, hr1, herr, List.range_succ]

theorem tryBody_trace (env : Nat → Except String Response) (dom : Dom) :
    (tryBody env dom).2.2 = ((fetchLoop env).attempts, (fetchLoop env).waits) := by
  unfold tryBody
  dsimp only
  repeat' split
  all_goals rfl

theorem initializeInterface_trace (env : Nat → Except String Response) (dom : Dom) :
    (initializeInterface env dom).attempts = (fetchLoop env).attempts ∧
    (initializeInterface env dom).waits = (fetchLoop env).waits := by
  have h := tryBody_trace env dom
  unfold initializeInterface
  rcases htb : tryBody env dom with ⟨r, dom2, n, ws⟩
  rw [htb] at h
  simp only [Prod.mk.injEq] at h
  rcases r with e | u
  · rcases hc : dom2.container with _ | c <;> simp [hc, h.1, h.2]
  · simp [h.1, h.2]

end Interface

namespace Interface

theorem applyPalette_container (v : JsVal) (dom : Dom) :
    (applyPalette v dom).2.container = dom.container := by
  unfold applyPalette
  repeat' split
  all_goals rfl

theorem appendButtons_container_some (l : List JsVal) (dom : Dom) (c : List Node)
    (h : dom.container = some c) :
    ∃ c2, (appendButtons l dom).2.container = some c2 := by
  induction l generalizing dom c with
  | nil => exact ⟨c, h⟩
  | cons p rest ih =>
    simp only [appendButtons]
    rcases hb : mkButton p with e | b
    · exact ⟨c, h⟩
    · exact ih _ _ rfl

theorem createPaletteButtons_container_some (v : JsVal) (dom : Dom) (c : List Node)
    (h : dom.container = some c) :
    ∃ c2, (createPaletteButtons v dom).2.container = some c2 := by
  unfold createPaletteButtons
  rw [h]
  dsimp only
  rcases v with s | _ | _ | fields | elems
  · exact ⟨[], rfl⟩
  · exact ⟨[], rfl⟩
  · exact ⟨[], rfl⟩
  · exact ⟨[], rfl⟩
  · dsimp only
    obtain ⟨c1, hc1⟩ := appendButtons_container_some elems { dom with container := some [] } [] rfl
    rcases hab : appendButtons elems { dom with container := some [] } with ⟨r, dom2⟩
    rw [hab] at hc1
    rcases r with e | u <;> dsimp only
    · exact ⟨c1, hc1⟩
    · rcases elems with _ | ⟨p0, tl⟩ <;> dsimp only
      · exact ⟨c1, hc1⟩
      · rw [applyPalette_container]
        exact ⟨c1, hc1⟩

end Interface

namespace Interface

theorem tryBody_all_fail (env : Nat → Except String Response) (dom : Dom)
    (r0 r1 r2 : Response)
    (h0 : env 0 = Except.ok r0) (hk0 : r0.ok = false)
    (h1 : env 1 = Except.ok r1) (hk1 : r1.ok = false)
    (h2 : env 2 = Except.ok r2) (hk2 : r2.ok = false) :
    tryBody env dom = (Except.error (failMessage r2), dom, 3, [100, 200, 400]) := by
  have hfl := fetchLoop_all_fail env r0 r1 r2 h0 hk0 h1 hk1 h2 hk2
  simp [tryBody, hfl, hk2]

theorem initializeInterface_all_fail (env : Nat → Except String Response) (dom : Dom)
    (c : List Node) (r0 r1 r2 : Response) (hc : dom.container = some c)
    (h0 : env 0 = Except.ok r0) (hk0 : r0.ok = false)
    (h1 : env 1 = Except.ok r1) (hk1 : r1.ok = false)
    (h2 : env 2 = Except.ok r2) (hk2 : r2.ok = false) :
    initializeInterface env dom =
      { dom := { dom with container := some [Node.html errorMessageHtml] },
        attempts := 3, waits := [100, 200, 400],
        caughtError := some (failMessage r2) } := by
  have htb := tryBody_all_fail env dom r0 r1 r2 h0 hk0 h1 hk1 h2 hk2
  simp [initializeInterface, htb, hc]

theorem tryBody_transport (env : Nat → Except String Response) (dom : Dom)
    (k : Nat) (e : String) (hk : k < maxRetries)
    (hbefore : ∀ j, j < k → ∃ r, env j = Except.ok r ∧ r.ok = false)
    (herr : env k = Except.error e) :
    tryBody env dom =
      (Except.error e, dom, k + 1, (List.range k).map (fun j => 2 ^ j * 100)) := by
  have hfl := fetchLoop_transport env k e hk hbefore herr
  simp [tryBody, hfl]

theorem tryBody_first_ok (env : Nat → Except String Response) (dom : Dom)
    (r : Response) (v : JsVal) (h0 : env 0 = Except.ok r) (hok : r.ok = true)
    (hjson : r.jsonResult = Except.ok v) :
    tryBody env dom =
      ((createPaletteButtons v dom).1, (createPaletteButtons v dom).2, 1, []) := by
  have hfl := fetchLoop_first_ok env r h0 hok
  rcases hcb : createPaletteButtons v dom with ⟨rr, dom2⟩
  simp [tryBody, hfl, hok, hjson, hcb]

end Interface

namespace Interface

-- --- Concrete fixtures for witnesses and counterexamples ---

/-- The palette from the spec's §8 scenario. -/
def oceanPalette : Palette :=
  { name := "Ocean", primary := "#006994", secondary := "#0099cc",
    text := "#ffffff", background := "#f0f8ff" }

/-- A second palette, to exercise multi-entry sequences. -/
def forestPalette : Palette :=
  { name := "Forest", primary := "#228b22", secondary := "#6b8e23",
    text := "#111111", background := "#f5fff5" }

/-- A page whose container element exists and is empty, with no style
variables set. -/
def emptyDom : Dom := { container := some [], rootStyle := [] }

/-- A page with a previously applied theme and stale container content. -/
def themedDom : Dom :=
  { container := some [Node.html "<p>stale</p>"],
    rootStyle := [("--color-primary", "#000000"), ("--color-accent", "#123456")] }

/-- A parsed body holding two well-formed palettes. -/
def okBody : JsVal := JsVal.varr [Palette.toJs oceanPalette, Palette.toJs forestPalette]

/-- A successful response whose body parses to `okBody`. -/
def okResponse : Response :=
  { ok := true, status := 200, statusText := "OK", jsonResult := Except.ok okBody }

/-- A non-success (HTTP 500) response. -/
def failResponse : Response :=
  { ok := false, status := 500, statusText := "Internal Server Error",
    jsonResult := Except.error "SyntaxError: Unexpected end of JSON input" }

/-- A successful response whose body is not valid JSON. -/
def badBodyResponse : Response :=
  { ok := true, status := 200, statusText := "OK",
    jsonResult := Except.error "SyntaxError: Unexpected token < in JSON at position 0" }

/-- Every fetch attempt returns HTTP 500. -/
def envAllFail : Nat → Except String Response := fun _ => Except.ok failResponse

/-- Every fetch attempt succeeds. -/
def envOk : Nat → Except String Response := fun _ => Except.ok okResponse

/-- Message of a rejected `fetch` (network-level transport error). -/
def transportMessage : String :=
  "TypeError: NetworkError when attempting to fetch resource."

/-- The first fetch attempt rejects with a transport error; any further
attempt would succeed. -/
def envTransportFirst : Nat → Except String Response :=
  fun i => if i = 0 then Except.error transportMessage else Except.ok okResponse

/-- The first fetch attempt returns HTTP 500; any further attempt succeeds. -/
def envStatusFirst : Nat → Except String Response :=
  fun i => if i = 0 then Except.ok failResponse else Except.ok okResponse

/-- Every fetch attempt succeeds but the body is not valid JSON. -/
def envParseFail : Nat → Except String Response := fun _ => Except.ok badBodyResponse

end Interface

namespace Interface

-- --- Claims ---

/-- C1, counterexample: the claim says a transport-error attempt is retried
exactly as a non-success status is. On `envTransportFirst` (attempt 1
rejects with a transport error; attempt 2 would return an ok response) the
code makes exactly one attempt and falls to the error handler, while on
`envStatusFirst` (same availability, but the first failure is a non-success
status) it retries and succeeds after 2 attempts. -/
theorem transport_error_not_retried_counterexample :
    (initializeInterface envTransportFirst emptyDom).attempts = 1 ∧
    (initializeInterface envTransportFirst emptyDom).caughtError = some transportMessage ∧
    (initializeInterface envTransportFirst emptyDom).dom.container =
      some [Node.html errorMessageHtml] ∧
    envTransportFirst 1 = Except.ok okResponse ∧ okResponse.ok = true ∧
    (initializeInterface envStatusFirst emptyDom).attempts = 2 ∧
    (initializeInterface envStatusFirst emptyDom).caughtError = none :=
  ⟨rfl, rfl, rfl, rfl, rfl, rfl, rfl⟩

/-- C1, amended: a load attempt that fails with a network-level transport
error is not retried. The retry loop aborts at once — after `k` earlier
status-failed attempts it has made `k + 1` attempts and waited the `k`
backoff delays already due — and the error goes to the single error
handler, which (when the container exists) replaces its content with the
failure message. Only non-success status responses are retried. -/
theorem transport_error_aborts_retry_loop (env : Nat → Except String Response)
    (dom : Dom) (c : List Node) (k : Nat) (e : String)
    (hc : dom.container = some c) (hk : k < maxRetries)
    (hbefore : ∀ j, j < k → ∃ r, env j = Except.ok r ∧ r.ok = false)
    (herr : env k = Except.error e) :
    (initializeInterface env dom).attempts = k + 1 ∧
    (initializeInterface env dom).waits = (List.range k).map (fun j => 2 ^ j * 100) ∧
    (initializeInterface env dom).caughtError = some e ∧
    (initializeInterface env dom).dom.container = some [Node.html errorMessageHtml] := by
  have htb := tryBody_transport env dom k e hk hbefore herr
  simp [initializeInterface, htb, hc]

/-- Closed instance of the amended C1 theorem at `envTransportFirst`. -/
theorem transport_error_aborts_retry_loop_witness :
    (initializeInterface envTransportFirst emptyDom).attempts = 0 + 1 ∧
    (initializeInterface envTransportFirst emptyDom).waits =
      (List.range 0).map (fun j => 2 ^ j * 100) ∧
    (initializeInterface envTransportFirst emptyDom).caughtError = some transportMessage ∧
    (initializeInterface envTransportFirst emptyDom).dom.container =
      some [Node.html errorMessageHtml] :=
  transport_error_aborts_retry_loop envTransportFirst emptyDom [] 0 transportMessage
    rfl (by decide) (fun j hj => absurd hj (Nat.not_lt_zero j)) rfl

/-- C2, counterexample: when every attempt fails by status the wait trace is
`[100, 200, 400]` — the loop also sleeps 400 ms after the third failed
attempt — not `[100, 200]` as the claim's "no other waits" requires. -/
theorem waits_no_other_waits_counterexample :
    (initializeInterface envAllFail emptyDom).attempts = 3 ∧
    (initializeInterface envAllFail emptyDom).waits = [100, 200, 400] ∧
    (initializeInterface envAllFail emptyDom).waits ≠ [100, 200] :=
  ⟨rfl, rfl, by decide⟩

/-- C2, amended: when every attempt fails by non-success status, the Loader
performs exactly 3 attempts and its complete wait sequence is 100, 200,
400 time units: 100 between attempts 1 and 2, 200 between attempts 2 and 3,
and a final 400 after the third failed attempt, before the failure is
reported. -/
theorem all_status_fail_three_attempts_waits (env : Nat → Except String Response)
    (dom : Dom) (r0 r1 r2 : Response)
    (h0 : env 0 = Except.ok r0) (hk0 : r0.ok = false)
    (h1 : env 1 = Except.ok r1) (hk1 : r1.ok = false)
    (h2 : env 2 = Except.ok r2) (hk2 : r2.ok = false) :
    (initializeInterface env dom).attempts = 3 ∧
    (initializeInterface env dom).waits = [100, 200, 400] := by
  have hfl := fetchLoop_all_fail env r0 r1 r2 h0 hk0 h1 hk1 h2 hk2
  have ht := initializeInterface_trace env dom
  rw [ht.1, ht.2, hfl]
  exact ⟨rfl, rfl⟩

/-- Closed instance of the amended C2 theorem at `envAllFail`. -/
theorem all_status_fail_three_attempts_waits_witness :
    (initializeInterface envAllFail emptyDom).attempts = 3 ∧
    (initializeInterface envAllFail emptyDom).waits = [100, 200, 400] :=
  all_status_fail_three_attempts_waits envAllFail emptyDom
    failResponse failResponse failResponse rfl rfl rfl rfl rfl rfl

/-- C5: if all 3 attempts fail by status, the caught error is the thrown
`failMessage`, which carries the last observed status (`r2.status` and
`r2.statusText` are interpolated into it), and the handler replaces the
container's entire content with the single error message — whatever
children `c` held before are gone — returning normally. -/
theorem retries_exhausted_reports_and_renders (env : Nat → Except String Response)
    (dom : Dom) (c : List Node) (r0 r1 r2 : Response) (hc : dom.container = some c)
    (h0 : env 0 = Except.ok r0) (hk0 : r0.ok = false)
    (h1 : env 1 = Except.ok r1) (hk1 : r1.ok = false)
    (h2 : env 2 = Except.ok r2) (hk2 : r2.ok = false) :
    (initializeInterface env dom).dom.container = some [Node.html errorMessageHtml] ∧
    (initializeInterface env dom).caughtError = some (failMessage r2) ∧
    (initializeInterface env dom).attempts = 3 := by
  have h := initializeInterface_all_fail env dom c r0 r1 r2 hc h0 hk0 h1 hk1 h2 hk2
  rw [h]
  exact ⟨rfl, rfl, rfl⟩

/-- Closed instance of the C5 theorem at `envAllFail`, on a page whose
container holds stale content beforehand. -/
theorem retries_exhausted_reports_and_renders_witness :
    (initializeInterface envAllFail themedDom).dom.container =
      some [Node.html errorMessageHtml] ∧
    (initializeInterface envAllFail themedDom).caughtError = some (failMessage failResponse) ∧
    (initializeInterface envAllFail themedDom).attempts = 3 :=
  retries_exhausted_reports_and_renders envAllFail themedDom [Node.html "<p>stale</p>"]
    failResponse failResponse failResponse rfl rfl rfl rfl rfl rfl rfl

end Interface

namespace Interface

/-- C3: rendering a non-empty palette sequence creates exactly one control
per entry, in input order (the container is exactly the list of buttons,
whose labels are the palettes' names by `buttonOf`), and applies the first
palette as the active theme without any click. -/
theorem render_nonempty_controls_and_default (p : Palette) (rest : List Palette)
    (dom : Dom) (c : List Node) (hc : dom.container = some c) :
    (createPaletteButtons (JsVal.varr ((p :: rest).map Palette.toJs)) dom).1 = Except.ok () ∧
    (createPaletteButtons (JsVal.varr ((p :: rest).map Palette.toJs)) dom).2.container =
      some ((p :: rest).map fun q => Node.button (buttonOf q)) ∧
    ((p :: rest).map fun q => Node.button (buttonOf q)).length = (p :: rest).length ∧
    (∀ q : Palette, (buttonOf q).textContent = q.name) ∧
    getProperty (createPaletteButtons (JsVal.varr ((p :: rest).map Palette.toJs)) dom).2.rootStyle
      "--color-primary" = some p.primary ∧
    getProperty (createPaletteButtons (JsVal.varr ((p :: rest).map Palette.toJs)) dom).2.rootStyle
      "--color-secondary" = some p.secondary ∧
    getProperty (createPaletteButtons (JsVal.varr ((p :: rest).map Palette.toJs)) dom).2.rootStyle
      "--color-text" = some p.text ∧
    getProperty (createPaletteButtons (JsVal.varr ((p :: rest).map Palette.toJs)) dom).2.rootStyle
      "--color-background" = some p.background := by
  rw [createPaletteButtons_toJs_cons p rest dom c hc]
  exact ⟨rfl, rfl, by simp, fun q => rfl,
    getProperty_appliedStyle_primary p dom.rootStyle,
    getProperty_appliedStyle_secondary p dom.rootStyle,
    getProperty_appliedStyle_text p dom.rootStyle,
    getProperty_appliedStyle_background p dom.rootStyle⟩

/-- Closed instance of the C3 theorem on the spec's §8 scenario input. -/
theorem render_nonempty_controls_and_default_witness :
    (createPaletteButtons (JsVal.varr ([oceanPalette].map Palette.toJs)) emptyDom).2.container =
      some ([oceanPalette].map fun q => Node.button (buttonOf q)) ∧
    getProperty
      (createPaletteButtons (JsVal.varr ([oceanPalette].map Palette.toJs)) emptyDom).2.rootStyle
      "--color-primary" = some "#006994" ∧
    getProperty
      (createPaletteButtons (JsVal.varr ([oceanPalette].map Palette.toJs)) emptyDom).2.rootStyle
      "--color-background" = some "#f0f8ff" :=
  ⟨(render_nonempty_controls_and_default oceanPalette [] emptyDom [] rfl).2.1,
    (render_nonempty_controls_and_default oceanPalette [] emptyDom [] rfl).2.2.2.2.1,
    (render_nonempty_controls_and_default oceanPalette [] emptyDom [] rfl).2.2.2.2.2.2.2⟩

/-- C6: if the first attempt returns an ok response, the loop ends after
exactly 1 attempt with no waits, and the try block proceeds directly to
parsing the body and handing the parsed sequence to the presenter. -/
theorem first_attempt_success_immediate (env : Nat → Except String Response)
    (dom : Dom) (r : Response) (v : JsVal)
    (h0 : env 0 = Except.ok r) (hok : r.ok = true) (hjson : r.jsonResult = Except.ok v) :
    fetchLoop env = { outcome := Except.ok (some r), attempts := 1, waits := [] } ∧
    (initializeInterface env dom).attempts = 1 ∧
    (initializeInterface env dom).waits = [] ∧
    tryBody env dom =
      ((createPaletteButtons v dom).1, (createPaletteButtons v dom).2, 1, []) := by
  have hfl := fetchLoop_first_ok env r h0 hok
  have ht := initializeInterface_trace env dom
  refine ⟨hfl, ?_, ?_, tryBody_first_ok env dom r v h0 hok hjson⟩
  · rw [ht.1, hfl]
  · rw [ht.2, hfl]

/-- Closed instance of the C6 theorem at `envOk`. -/
theorem first_attempt_success_immediate_witness :
    fetchLoop envOk = { outcome := Except.ok (some okResponse), attempts := 1, waits := [] } ∧
    (initializeInterface envOk emptyDom).attempts = 1 ∧
    (initializeInterface envOk emptyDom).waits = [] :=
  ⟨(first_attempt_success_immediate envOk emptyDom okResponse okBody rfl rfl rfl).1,
    (first_attempt_success_immediate envOk emptyDom okResponse okBody rfl rfl rfl).2.1,
    (first_attempt_success_immediate envOk emptyDom okResponse okBody rfl rfl rfl).2.2.1⟩

/-- C7: rendering the empty palette sequence succeeds, creates zero
controls (the container is left empty), and leaves the root style — hence
all four theme variables — untouched. -/
theorem render_empty_no_controls_no_theme (dom : Dom) (c : List Node)
    (hc : dom.container = some c) :
    (createPaletteButtons (JsVal.varr []) dom).1 = Except.ok () ∧
    (createPaletteButtons (JsVal.varr []) dom).2.container = some [] ∧
    (createPaletteButtons (JsVal.varr []) dom).2.rootStyle = dom.rootStyle := by
  simp [createPaletteButtons, hc, appendButtons]

/-- Closed instance of the C7 theorem on a page with stale content and a
previously applied theme. -/
theorem render_empty_no_controls_no_theme_witness :
    (createPaletteButtons (JsVal.varr []) themedDom).1 = Except.ok () ∧
    (createPaletteButtons (JsVal.varr []) themedDom).2.container = some [] ∧
    (createPaletteButtons (JsVal.varr []) themedDom).2.rootStyle = themedDom.rootStyle :=
  render_empty_no_controls_no_theme themedDom [Node.html "<p>stale</p>"] rfl

/-- C8: rendering the same palette sequence twice in a row yields exactly
the same document state (same control set, same active theme) as rendering
it once. -/
theorem render_idempotent (P : List Palette) (dom : Dom) (c : List Node)
    (hc : dom.container = some c) :
    (createPaletteButtons (JsVal.varr (P.map Palette.toJs))
        (createPaletteButtons (JsVal.varr (P.map Palette.toJs)) dom).2).2 =
      (createPaletteButtons (JsVal.varr (P.map Palette.toJs)) dom).2 := by
  cases P with
  | nil =>
    rw [createPaletteButtons_toJs_nil dom c hc]
    dsimp only
    rw [createPaletteButtons_toJs_nil _ [] rfl]
  | cons p rest =>
    rw [createPaletteButtons_toJs_cons p rest dom c hc]
    dsimp only
    rw [createPaletteButtons_toJs_cons p rest _ _ rfl]
    simp [appliedStyle_idem]

/-- Closed instance of the C8 theorem on a two-palette sequence. -/
theorem render_idempotent_witness :
    (createPaletteButtons (JsVal.varr ([oceanPalette, forestPalette].map Palette.toJs))
        (createPaletteButtons
          (JsVal.varr ([oceanPalette, forestPalette].map Palette.toJs)) themedDom).2).2 =
      (createPaletteButtons
        (JsVal.varr ([oceanPalette, forestPalette].map Palette.toJs)) themedDom).2 :=
  render_idempotent [oceanPalette, forestPalette] themedDom [Node.html "<p>stale</p>"] rfl

end Interface

namespace Interface

theorem get_map_buttons (P : List Palette) (k : Nat) (hk : k < P.length) :
    (P.map fun q => Node.button (buttonOf q)).get? k =
      some (Node.button (buttonOf (P.get ⟨k, hk⟩))) := by
  rw [List.get?_map, List.get?_eq_get hk]
  rfl

/-- C4: after rendering sequence `P`, the control at index `k` is the button
built from `P[k]` (its click listener captured exactly that palette at
creation time), and activating that button — against any later document
state `dom2`, whatever re-renders produced it — succeeds and overwrites the
theme with `P[k]`'s four color values. -/
theorem click_control_applies_captured_palette (P : List Palette) (dom dom2 : Dom)
    (c : List Node) (k : Nat) (hc : dom.container = some c) (hk : k < P.length) :
    ((createPaletteButtons (JsVal.varr (P.map Palette.toJs)) dom).2.container.getD []).get? k =
      some (Node.button (buttonOf (P.get ⟨k, hk⟩))) ∧
    (clickButton (buttonOf (P.get ⟨k, hk⟩)) dom2).1 = Except.ok () ∧
    (clickButton (buttonOf (P.get ⟨k, hk⟩)) dom2).2.container = dom2.container ∧
    getProperty (clickButton (buttonOf (P.get ⟨k, hk⟩)) dom2).2.rootStyle
      "--color-primary" = some (P.get ⟨k, hk⟩).primary ∧
    getProperty (clickButton (buttonOf (P.get ⟨k, hk⟩)) dom2).2.rootStyle
      "--color-secondary" = some (P.get ⟨k, hk⟩).secondary ∧
    getProperty (clickButton (buttonOf (P.get ⟨k, hk⟩)) dom2).2.rootStyle
      "--color-text" = some (P.get ⟨k, hk⟩).text ∧
    getProperty (clickButton (buttonOf (P.get ⟨k, hk⟩)) dom2).2.rootStyle
      "--color-background" = some (P.get ⟨k, hk⟩).background := by
  have hclick : clickButton (buttonOf (P.get ⟨k, hk⟩)) dom2 =
      (Except.ok (), { dom2 with rootStyle := appliedStyle (P.get ⟨k, hk⟩) dom2.rootStyle }) := by
    show applyPalette (Palette.toJs (P.get ⟨k, hk⟩)) dom2 = _
    exact applyPalette_toJs (P.get ⟨k, hk⟩) dom2
  refine ⟨?_, ?_, ?_, ?_, ?_, ?_, ?_⟩
  · cases P with
    | nil => exact absurd hk (by simp)
    | cons p rest =>
      rw [createPaletteButtons_toJs_cons p rest dom c hc]
      exact get_map_buttons (p :: rest) k hk
  · rw [hclick]
  · rw [hclick]
  · rw [hclick]
    exact getProperty_appliedStyle_primary _ _
  · rw [hclick]
    exact getProperty_appliedStyle_secondary _ _
  · rw [hclick]
    exact getProperty_appliedStyle_text _ _
  · rw [hclick]
    exact getProperty_appliedStyle_background _ _

/-- Closed instance of the C4 theorem: the second control of a two-palette
render, activated against a page whose theme was already set. -/
theorem click_control_applies_captured_palette_witness :
    ((createPaletteButtons (JsVal.varr ([oceanPalette, forestPalette].map Palette.toJs))
          emptyDom).2.container.getD []).get? 1 =
      some (Node.button (buttonOf ([oceanPalette, forestPalette].get ⟨1, by decide⟩))) ∧
    getProperty (clickButton (buttonOf ([oceanPalette, forestPalette].get ⟨1, by decide⟩))
        themedDom).2.rootStyle "--color-primary" = some "#228b22" :=
  ⟨(click_control_applies_captured_palette [oceanPalette, forestPalette] emptyDom themedDom
      [] 1 rfl (by decide)).1,
    (click_control_applies_captured_palette [oceanPalette, forestPalette] emptyDom themedDom
      [] 1 rfl (by decide)).2.2.2.1⟩

/-- C9: on any structurally valid palette, `applyPalette` succeeds, touches
nothing but the root style (the container is unchanged), sets all four
theme variables to the palette's values — whatever strings those are, no
color-syntax validation — and leaves every other style property exactly as
it was. -/
theorem applyTheme_overwrites_exactly_four_vars (p : Palette) (dom : Dom) :
    (applyPalette (Palette.toJs p) dom).1 = Except.ok () ∧
    (applyPalette (Palette.toJs p) dom).2.container = dom.container ∧
    getProperty (applyPalette (Palette.toJs p) dom).2.rootStyle "--color-primary" =
      some p.primary ∧
    getProperty (applyPalette (Palette.toJs p) dom).2.rootStyle "--color-secondary" =
      some p.secondary ∧
    getProperty (applyPalette (Palette.toJs p) dom).2.rootStyle "--color-text" =
      some p.text ∧
    getProperty (applyPalette (Palette.toJs p) dom).2.rootStyle "--color-background" =
      some p.background ∧
    (∀ key : String, key ≠ "--color-primary" → key ≠ "--color-secondary" →
      key ≠ "--color-text" → key ≠ "--color-background" →
      getProperty (applyPalette (Palette.toJs p) dom).2.rootStyle key =
        getProperty dom.rootStyle key) := by
  rw [applyPalette_toJs]
  exact ⟨rfl, rfl, getProperty_appliedStyle_primary p dom.rootStyle,
    getProperty_appliedStyle_secondary p dom.rootStyle,
    getProperty_appliedStyle_text p dom.rootStyle,
    getProperty_appliedStyle_background p dom.rootStyle,
    fun key h1 h2 h3 h4 => getProperty_appliedStyle_other p dom.rootStyle key h1 h2 h3 h4⟩

/-- A palette whose `primary` is not color syntax: applied unchecked. -/
def oddPalette : Palette :=
  { name := "Odd", primary := "not-a-color", secondary := "s",
    text := "t", background := "b" }

/-- Closed instance of the C9 theorem: a non-color-syntax value is applied
unchecked, and an unrelated style property survives. -/
theorem applyTheme_overwrites_exactly_four_vars_witness :
    (applyPalette (Palette.toJs oddPalette) themedDom).1 = Except.ok () ∧
    getProperty (applyPalette (Palette.toJs oddPalette) themedDom).2.rootStyle
      "--color-primary" = some "not-a-color" ∧
    getProperty (applyPalette (Palette.toJs oddPalette) themedDom).2.rootStyle
      "--color-accent" = getProperty themedDom.rootStyle "--color-accent" :=
  ⟨(applyTheme_overwrites_exactly_four_vars oddPalette themedDom).1,
    (applyTheme_overwrites_exactly_four_vars oddPalette themedDom).2.2.1,
    (applyTheme_overwrites_exactly_four_vars oddPalette themedDom).2.2.2.2.2.2
      "--color-accent" (by decide) (by decide) (by decide) (by decide)⟩

end Interface

namespace Interface

/-- C10: whenever the retry loop ends with an ok response but a later step
throws — the body fails to parse, or `createPaletteButtons` itself throws
(a non-array body, a malformed entry hit during control creation, or while
applying the default palette) — the one `catch` handler runs: it logs that
very error and replaces the container's content with the same load-failure
message, even though the network load succeeded. -/
theorem post_fetch_throw_handled_by_error_handler (env : Nat → Except String Response)
    (dom : Dom) (c : List Node) (r : Response) (e : String)
    (hc : dom.container = some c)
    (hloop : (fetchLoop env).outcome = Except.ok (some r)) (hok : r.ok = true)
    (hthrow : r.jsonResult = Except.error e ∨
      ∃ v, r.jsonResult = Except.ok v ∧ (createPaletteButtons v dom).1 = Except.error e) :
    (initializeInterface env dom).dom.container = some [Node.html errorMessageHtml] ∧
    (initializeInterface env dom).caughtError = some e := by
  rcases hthrow with hjson | ⟨v, hjson, hcreate⟩
  · have htb : tryBody env dom =
        (Except.error e, dom, (fetchLoop env).attempts, (fetchLoop env).waits) := by
      simp [tryBody, hloop, hok, hjson]
    simp [initializeInterface, htb, hc]
  · rcases hcb : createPaletteButtons v dom with ⟨rr, dom2⟩
    rw [hcb] at hcreate
    have htb : tryBody env dom =
        (Except.error e, dom2, (fetchLoop env).attempts, (fetchLoop env).waits) := by
      simp only at hcreate
      simp [tryBody, hloop, hok, hjson, hcb, hcreate]
    obtain ⟨c2, hc2⟩ := createPaletteButtons_container_some v dom c hc
    rw [hcb] at hc2
    simp only at hc2
    simp [initializeInterface, htb, hc2]

/-- Closed instance of the C10 theorem: every fetch succeeds but the body is
not valid JSON; the parse error lands in the same handler. -/
theorem post_fetch_throw_handled_by_error_handler_witness :
    (initializeInterface envParseFail emptyDom).dom.container =
      some [Node.html errorMessageHtml] ∧
    (initializeInterface envParseFail emptyDom).caughtError =
      some "SyntaxError: Unexpected token < in JSON at position 0" :=
  post_fetch_throw_handled_by_error_handler envParseFail emptyDom [] badBodyResponse
    "SyntaxError: Unexpected token < in JSON at position 0" rfl rfl rfl (Or.inl rfl)

end Interface
